import Mathlib

/-!
Verification development for the SOTD (Stock of the Day) application
(src/App.py): a shallow embedding of the news client, the market-data
client, the symbol extractor, the analysis-prompt builder and the /stock
route orchestration, with theorems settling the specification claims.

External effects are modelled by explicit inputs: the news HTTP response,
the market-data provider outcome and the two language-model calls are
parameters of the embedded functions.  Python numbers are modelled as
rationals; raising an exception is modelled by an Except error value.
-/

namespace SOTD

/-- A minimal JSON value, the shape of the bodies returned by the news
provider. -/
inductive Json where
  | null : Json
  | bool (b : Bool) : Json
  | num (q : ℚ) : Json
  | str (s : String) : Json
  | arr (xs : List Json) : Json
  | obj (kvs : List (String × Json)) : Json

/-- Exception kinds that can escape the embedded functions uncaught
(everything that is not a requests.RequestException). -/
inductive PyErr where
  | keyError
  | typeError
  | attributeError
deriving DecidableEq

/-- Python dict lookup d.get(k) on a JSON object (keys of a parsed JSON
object are distinct, so first binding wins). -/
def pyGet (kvs : List (String × Json)) (k : String) : Option Json :=
  (kvs.find? (fun kv => kv.1 == k)).map (fun kv => kv.2)

/-- Outcome of requests.get on the news endpoint.  transportError covers
timeouts and network failures (requests.RequestException), httpError is a
status for which raise_for_status raises (also a RequestException), and
badJson is a 2xx body that response.json() cannot parse (raises
requests JSONDecodeError, a RequestException subclass since requests
2.27).  ok carries the parsed 2xx JSON body. -/
inductive NewsResponse where
  | transportError
  | httpError (status : Nat)
  | badJson
  | ok (body : Json)

/-- The comprehension [article["title"] for article in articles] of
get_news_headlines: indexing a non-dict article raises TypeError, a dict
article without a "title" key raises KeyError; these are not
RequestExceptions, so they escape the except clause. -/
def extractTitles : List Json → Except PyErr (List Json)
  | [] => Except.ok []
  | a :: rest =>
    match a with
    | Json.obj akvs =>
      match pyGet akvs "title" with
      | some t => (extractTitles rest).map (fun ts => t :: ts)
      | none => Except.error PyErr.keyError
    | _ => Except.error PyErr.typeError

/-- Embedding of get_news_headlines (src/App.py lines 40-71).  The try
block catches requests.RequestException only (transport errors, error
statuses raised by raise_for_status, JSON decode failures) and returns [].
A 2xx JSON body is processed as data.get("articles", [])[:max_articles]
followed by the title comprehension; a non-dict body makes .get raise
AttributeError, slicing a non-list non-string makes [:] raise TypeError,
and a string slices to its characters, which the comprehension then fails
to index (TypeError) unless the slice is empty.  None of those are caught. -/
def get_news_headlines (ticker : String) (resp : NewsResponse) (max_articles : Nat) :
    Except PyErr (List Json) :=
  match resp with
  | NewsResponse.transportError => Except.ok []
  | NewsResponse.httpError _ => Except.ok []
  | NewsResponse.badJson => Except.ok []
  | NewsResponse.ok body =>
    match body with
    | Json.obj kvs =>
      match (pyGet kvs "articles").getD (Json.arr []) with
      | Json.arr xs => extractTitles (xs.take max_articles)
      | Json.str s => if s.length = 0 ∨ max_articles = 0 then Except.ok [] else Except.error PyErr.typeError
      | _ => Except.error PyErr.typeError
    | _ => Except.error PyErr.attributeError

/-- Floor of a rational, computed directly: the denominator is positive,
so Euclidean division of the numerator by it rounds toward minus
infinity. -/
def ratFloor (q : ℚ) : ℤ := Int.ediv q.num q.den

/-- Python round-half-to-even to an integer (the tie behaviour of
round()); values here are exact decimals, so float representation issues
do not arise. -/
def roundHalfEven (q : ℚ) : ℤ :=
  let f := ratFloor q
  let r := q - (f : ℚ)
  if r < 1/2 then f
  else if 1/2 < r then f + 1
  else if f % 2 = 0 then f else f + 1

/-- Python round(x, 2). -/
def pyRound2 (q : ℚ) : ℚ := ((roundHalfEven (q * 100) : ℚ)) / 100

/-- The fields of yfinance Ticker(t).info that get_stock_price_data
reads; each may be absent. -/
structure YfInfo where
  regularMarketPrice : Option ℚ
  regularMarketPreviousClose : Option ℚ
deriving DecidableEq

/-- Outcome of the yfinance call: err is any exception while building the
Ticker or reading info (the except Exception clause catches it), ok is a
successfully retrieved info mapping. -/
inductive YfResult where
  | err
  | ok (info : YfInfo)

/-- The dictionary returned by get_stock_price_data. -/
structure PriceData where
  price : Option ℚ
  change_percentage : Option ℚ
deriving DecidableEq

/-- Embedding of get_stock_price_data (src/App.py lines 74-104).  The
guard in the source is Python truthiness: `if current_price and
previous_close and previous_close != 0`, so a present-but-zero current
price (or previous close) also yields a null change; the match below
renders exactly that, folding the redundant `!= 0` test into the
truthiness of previous_close. -/
def get_stock_price_data (ticker : String) (r : YfResult) : PriceData :=
  match r with
  | YfResult.err => { price := none, change_percentage := none }
  | YfResult.ok info =>
    let current_price := info.regularMarketPrice
    let previous_close := info.regularMarketPreviousClose
    let change_percentage : Option ℚ :=
      match current_price, previous_close with
      | some c, some p =>
        if c ≠ 0 ∧ p ≠ 0 then some (pyRound2 ((c - p) / p * 100)) else none
      | _, _ => none
    { price := current_price, change_percentage := change_percentage }

/-- A word character of the regular-expression metacharacter class, for the
ASCII range handled here: [A-Za-z0-9_].  (Python re is unicode-aware; the
texts this development evaluates are ASCII.) -/
def isWordChar (c : Char) : Bool := c.isAlpha || c.isDigit || c == '_'

/-- Accumulating tokenizer: splits a character list into its maximal runs of
word characters, in order. -/
def wordsAux : List Char → List Char → List (List Char)
  | [], acc => if acc.isEmpty then [] else [acc.reverse]
  | c :: rest, acc =>
    if isWordChar c then wordsAux rest (c :: acc)
    else if acc.isEmpty then wordsAux rest [] else acc.reverse :: wordsAux rest []

/-- The maximal word-character runs of a string, in left-to-right order. -/
def wordTokens (s : String) : List String :=
  (wordsAux s.data []).map (fun cs => String.mk cs)

/-- The re.findall matches of the pattern used by extract_stock_symbol: word-boundary,
1 to 5 uppercase letters, word-boundary.  A run of uppercase letters adjacent
to any further word character has no boundary there, so the matches are
exactly the maximal word runs that consist wholly of 1 to 5 uppercase ASCII
letters, in scan order. -/
def findallSymbols (text : String) : List String :=
  (wordTokens text).filter
    (fun w => w.length ≥ 1 && w.length ≤ 5 && w.data.all (fun c => c.isUpper))

/-- The stoplist of extract_stock_symbol (src/App.py line 251). -/
def common_words : List String :=
  ["THE", "AND", "FOR", "ARE", "YOU", "ALL", "NEW", "TOP", "BEST", "HIGH", "LOW"]

/-- Embedding of extract_stock_symbol (src/App.py lines 236-253): the first
regex match that is neither stoplisted nor shorter than 2 characters. -/
def extract_stock_symbol (ai_discovery : String) : Option String :=
  let symbols := findallSymbols ai_discovery
  let filtered := symbols.filter (fun s => !(common_words.contains s) && s.length ≥ 2)
  filtered.head?

/-- Fractional decimal digits of a rational in [0, 1), most significant
first, until the remainder is zero or the fuel runs out.  All values met in
this development are exact short decimals, so the fuel (17, the longest
repr Python prints) is never exhausted. -/
def fracDigits : ℚ → Nat → String
  | _, 0 => ""
  | q, Nat.succ k =>
    if q = 0 then ""
    else
      let q10 := q * 10
      let d := (ratFloor q10).toNat
      toString d ++ fracDigits (q10 - (d : ℚ)) k

/-- Modelled: the Python str()/repr() of a float whose value is an exact
short decimal (every numeric value evaluated in this development is one);
renders a sign, the integer part, and at least one fractional digit, so
integers print as in Python (25.0 prints as 25.0). -/
def pyFloatRepr (q : ℚ) : String :=
  let sgn := if q < 0 then "-" else ""
  let a := if q < 0 then -q else q
  let ip := (ratFloor a).toNat
  let fd := fracDigits (a - (ip : ℚ)) 17
  sgn ++ toString ip ++ "." ++ (if fd = "" then "0" else fd)

/-- Python truthiness of an optional number: None and 0 are falsy. -/
def pyTruthyOptQ : Option ℚ → Bool
  | none => false
  | some q => q != 0

/-- The dictionary built by analyze_single_stock; news keeps the raw title
values from the provider (Python does not check they are strings). -/
structure StockData where
  symbol : String
  price : Option ℚ
  change_percentage : Option ℚ
  news : List Json

/-- Embedding of analyze_single_stock (src/App.py lines 144-170): its try
block absorbs any exception escaping get_news_headlines (or
get_stock_price_data, though that returns normally on every input) and
returns None. -/
def analyze_single_stock (stock_symbol : String) (yfr : YfResult) (nresp : NewsResponse) :
    Option StockData :=
  let price_data := get_stock_price_data stock_symbol yfr
  match get_news_headlines stock_symbol nresp 3 with
  | Except.error _ => none
  | Except.ok news_headlines =>
    some { symbol := stock_symbol, price := price_data.price,
           change_percentage := price_data.change_percentage,
           news := news_headlines }

/-- Conversion of a title value as seen by the join: only actual strings are
joinable; anything else makes "; ".join raise TypeError. -/
def strOfJsonTitle : Json → Option String
  | Json.str s => some s
  | _ => none

/-- The values of a title list when all of them are strings; none as soon
as one is not (the TypeError of "; ".join). -/
def mapStrTitles : List Json → Option (List String)
  | [] => some []
  | j :: rest =>
    match strOfJsonTitle j with
    | some s => (mapStrTitles rest).map (fun ss => s :: ss)
    | none => none

/-- The news_str expression of build_analysis_prompt: Python truthiness of
the list (empty is falsy) selects "No recent news", otherwise "; ".join,
which raises TypeError (modelled as none) on a non-string element. -/
def newsJoin (news : List Json) : Option String :=
  if news.isEmpty then some "No recent news"
  else (mapStrTitles news).map (fun ss => String.intercalate "; " ss)

/-- The fixed text of the analysis prompt before the stock fields
(src/App.py lines 187-190). -/
def promptHead : String :=
  "You are a top stock analyst. Based on the following discovered small-cap stock with its current price, daily change, and recent news headlines, provide a detailed analysis of this stock\x27s potential for significant growth:\n\n"

/-- The fixed text of the analysis prompt after the stock fields
(src/App.py lines 195-199). -/
def promptTail : String :=
  "\n\nProvide a comprehensive analysis including:\n1. Why this stock shows promise\n2. Key factors driving its potential\n3. Risk considerations\n4. Your overall recommendation"

/-- Embedding of build_analysis_prompt (src/App.py lines 173-202).  The
price string uses Python truthiness (a present-but-zero price renders as
N/A), the change string tests `is not None`, and the news string is the
join above; a TypeError of the join escapes as an error. -/
def build_analysis_prompt (stock_data : StockData) : Except PyErr String :=
  let price_str :=
    if pyTruthyOptQ stock_data.price then "$" ++ pyFloatRepr (stock_data.price.getD 0)
    else "N/A"
  let change_str :=
    match stock_data.change_percentage with
    | some c => pyFloatRepr c ++ "%"
    | none => "N/A"
  match newsJoin stock_data.news with
  | none => Except.error PyErr.typeError
  | some news_str =>
    Except.ok (promptHead ++ "Stock: " ++ stock_data.symbol ++
      "\nCurrent Price: " ++ price_str ++
      "\nDaily Change: " ++ change_str ++
      "\nRecent News: " ++ news_str ++ promptTail)

/-- The stubbed external calls of one /stock request: the discovery model
call (error, or its optional message content), the market-data provider,
the news response, and the analysis model call as a function of the
prompt. -/
structure Stubs where
  discovery : Except Unit (Option String)
  market : YfResult
  news : NewsResponse
  analysis : String → Except Unit (Option String)

/-- The description every pipeline failure reports: flask abort raises a
werkzeug HTTPException, which is itself an Exception, so the stage-specific
aborts inside the try block are caught by the catch-all handler, which
re-aborts with this generic description; upstream exceptions reach the same
handler directly. -/
def genericFailure : String := "Failed to generate stock recommendation"

/-- Embedding of the /stock route handler (src/App.py lines 262-312).  The
error value is the description of the 500 response the caller sees; the
success value is the ai_pick string handed to the template (rendering is
presentation, out of scope). -/
def stockRoute (st : Stubs) : Except String String :=
  match st.discovery with
  | Except.error _ => Except.error genericFailure
  | Except.ok none => Except.error genericFailure
  | Except.ok (some ai_discovery) =>
    match extract_stock_symbol ai_discovery with
    | none => Except.error genericFailure
    | some stock_symbol =>
      match analyze_single_stock stock_symbol st.market st.news with
      | none => Except.error genericFailure
      | some stock_data =>
        match build_analysis_prompt stock_data with
        | Except.error _ => Except.error genericFailure
        | Except.ok analysis_prompt =>
          match st.analysis analysis_prompt with
          | Except.error _ => Except.error genericFailure
          | Except.ok none => Except.error genericFailure
          | Except.ok (some ai_recommendation) =>
            Except.ok ("AI Stock Discovery:\n" ++ ai_discovery ++
              "\n\nDetailed Analysis:\n" ++ ai_recommendation)

/-- Does the pattern occur at the head of the list? -/
def leadEq : List Char → List Char → Bool
  | [], _ => true
  | _ :: _, [] => false
  | a :: as, b :: bs => a == b && leadEq as bs

/-- Does the pattern occur anywhere in the list? -/
def subAt : List Char → List Char → Bool
  | pat, [] => leadEq pat []
  | pat, c :: rest => leadEq pat (c :: rest) || subAt pat rest

/-- Substring test: pat occurs contiguously in s. -/
def strHasSub (s pat : String) : Bool := subAt pat.data s.data

/-- Modelled from the spec (section 4.3): the candidate matches are the
word-bounded runs of 1 to 5 uppercase letters of the text in left-to-right
scan order, and the survivors discard stoplisted words and matches shorter
than 2 characters. -/
def specSurvivors (text : String) : List String :=
  ((wordTokens text).filter
      (fun w => w.length ≥ 1 && w.length ≤ 5 && w.data.all (fun c => c.isUpper))).filter
    (fun s => !(common_words.contains s) && s.length ≥ 2)

/-- The title a well-formed article object carries (spec-side accessor for
stating C8). -/
def articleTitle : Json → Option Json
  | Json.obj akvs => pyGet akvs "title"
  | _ => none

/-- The string carried by a JSON string title (spec-side, for stating the
prompt format); non-strings never reach a built prompt. -/
def jsonStrVal : Json → String
  | Json.str s => s
  | _ => ""

/-- If the head of a filtered list exists, it satisfies the filter. -/
theorem head_filter_prop {α : Type} (p : α → Bool) (l : List α) (a : α)
    (h : (l.filter p).head? = some a) : p a = true := by
  rcases hl : l.filter p with _ | ⟨b, t⟩
  · rw [hl] at h
    exact absurd h (by simp)
  · rw [hl] at h
    have hb : b = a := by simpa using h
    subst hb
    exact List.of_mem_filter (by rw [hl]; exact List.mem_cons_self b t)

/-- The title comprehension succeeds, returning the titles in article
order, when every taken article has one. -/
theorem extractTitles_ok_of_titles (l : List Json)
    (h : ∀ a ∈ l, (articleTitle a).isSome = true) :
    extractTitles l = Except.ok (l.filterMap articleTitle) := by
  induction l with
  | nil => rfl
  | cons a rest ih =>
    have ha := h a (List.mem_cons_self a rest)
    have hrest := ih (fun b hb => h b (List.mem_cons_of_mem _ hb))
    match a with
    | Json.null | Json.bool _ | Json.num _ | Json.str _ | Json.arr _ =>
      simp [articleTitle] at ha
    | Json.obj akvs =>
      rcases hpg : pyGet akvs "title" with _ | t
      · rw [articleTitle] at ha
        rw [hpg] at ha
        simp at ha
      · simp [extractTitles, hpg, hrest, List.filterMap_cons, articleTitle, Except.map]

/-- The join map succeeds, with the underlying strings, when all titles
are strings. -/
theorem mapStrTitles_of_strs (l : List Json) (h : ∀ j ∈ l, ∃ s, j = Json.str s) :
    mapStrTitles l = some (l.map jsonStrVal) := by
  induction l with
  | nil => rfl
  | cons j rest ih =>
    obtain ⟨s, hs⟩ := h j (List.mem_cons_self j rest)
    subst hs
    have hrest := ih (fun b hb => h b (List.mem_cons_of_mem _ hb))
    simp [mapStrTitles, strOfJsonTitle, hrest, jsonStrVal]

/-- Every run of the route either fails with the single generic
description, or succeeds through all five stages and composes the two
model texts under the fixed headers. -/
theorem stockRoute_shape (st : Stubs) :
    stockRoute st = Except.error genericFailure ∨
    ∃ d sym sd p r,
      st.discovery = Except.ok (some d) ∧
      extract_stock_symbol d = some sym ∧
      analyze_single_stock sym st.market st.news = some sd ∧
      build_analysis_prompt sd = Except.ok p ∧
      st.analysis p = Except.ok (some r) ∧
      stockRoute st =
        Except.ok ("AI Stock Discovery:\n" ++ d ++ "\n\nDetailed Analysis:\n" ++ r) := by
  unfold stockRoute
  split
  · exact Or.inl rfl
  · exact Or.inl rfl
  next d hd =>
    split
    · exact Or.inl rfl
    next sym hsym =>
      split
      · exact Or.inl rfl
      next sd hsd =>
        split
        · exact Or.inl rfl
        next p hp =>
          split
          · exact Or.inl rfl
          · exact Or.inl rfl
          next r hr =>
            exact Or.inr ⟨d, sym, sd, p, r, hd, hsym, hsd, hp, hr, rfl⟩

/-- Claim C2, counterexample: a 2xx response whose JSON body is malformed
(the articles array holds an object with no "title" key) makes
get_news_headlines raise an uncaught KeyError instead of returning the
empty list, so it does not hold for every failure of the news fetch. -/
theorem C2_counterexample :
    get_news_headlines "NVDA"
        (NewsResponse.ok (Json.obj [("articles", Json.arr [Json.obj []])])) 3 =
      Except.error PyErr.keyError ∧
    get_news_headlines "NVDA"
        (NewsResponse.ok (Json.obj [("articles", Json.arr [Json.obj []])])) 3 ≠
      Except.ok [] :=
  ⟨rfl, fun h => Except.noConfusion h⟩

/-- Claim C2, amended: for every ticker, get_news_headlines returns the
empty list and raises nothing for timeouts, network errors, non-2xx
statuses and non-JSON bodies (all surfacing as the requests.RequestException
its handler catches); but a 2xx JSON body of unexpected shape escapes the
handler, e.g. a non-object element of the articles array raises TypeError. -/
theorem C2_thm (ticker : String) (status : Nat) (m : Nat) :
    get_news_headlines ticker NewsResponse.transportError m = Except.ok [] ∧
    get_news_headlines ticker (NewsResponse.httpError status) m = Except.ok [] ∧
    get_news_headlines ticker NewsResponse.badJson m = Except.ok [] ∧
    get_news_headlines ticker
        (NewsResponse.ok (Json.obj [("articles", Json.arr [Json.num 1])])) 3 =
      Except.error PyErr.typeError :=
  ⟨rfl, rfl, rfl, rfl⟩

/-- Claim C7: on any provider error, get_stock_price_data absorbs the
exception (its handler catches every Exception) and returns the null
fallback dictionary, for every ticker. -/
theorem C7_thm (ticker : String) :
    get_stock_price_data ticker YfResult.err =
      { price := none, change_percentage := none } :=
  rfl

/-- Claim C8: for every ticker and every successful news response whose
first max_articles articles each carry a title, get_news_headlines returns
exactly the titles of those first articles in provider order, and at most
max_articles of them. -/
theorem C8_thm (ticker : String) (m : Nat) (kvs : List (String × Json)) (xs : List Json)
    (harticles : pyGet kvs "articles" = some (Json.arr xs))
    (htitles : ∀ a ∈ xs.take m, (articleTitle a).isSome = true) :
    get_news_headlines ticker (NewsResponse.ok (Json.obj kvs)) m =
      Except.ok ((xs.take m).filterMap articleTitle) ∧
    ((xs.take m).filterMap articleTitle).length ≤ m := by
  constructor
  · unfold get_news_headlines
    dsimp only
    rw [harticles]
    exact extractTitles_ok_of_titles _ htitles
  · calc ((xs.take m).filterMap articleTitle).length
        ≤ (xs.take m).length := List.length_filterMap_le _ _
      _ ≤ m := List.length_take_le m xs

/-- Claim C8, witness: a concrete successful response with two titled
articles and the default cap of three. -/
theorem C8_witness :
    get_news_headlines "NVDA"
        (NewsResponse.ok (Json.obj [("articles", Json.arr
          [Json.obj [("title", Json.str "A1")], Json.obj [("title", Json.str "B2")]])])) 3 =
      Except.ok (([Json.obj [("title", Json.str "A1")],
        Json.obj [("title", Json.str "B2")]].take 3).filterMap articleTitle) ∧
    (([Json.obj [("title", Json.str "A1")],
        Json.obj [("title", Json.str "B2")]].take 3).filterMap articleTitle).length ≤ 3 :=
  C8_thm "NVDA" 3 [("articles", Json.arr
    [Json.obj [("title", Json.str "A1")], Json.obj [("title", Json.str "B2")]])]
    [Json.obj [("title", Json.str "A1")], Json.obj [("title", Json.str "B2")]]
    rfl (by decide)

/-- Claim C10: a 2xx JSON object body with no articles key at all yields
the empty list without error, exactly as an empty articles array would. -/
theorem C10_thm (ticker : String) (kvs : List (String × Json))
    (h : pyGet kvs "articles" = none) :
    get_news_headlines ticker (NewsResponse.ok (Json.obj kvs)) 3 = Except.ok [] := by
  unfold get_news_headlines
  dsimp only
  rw [h]
  rfl

/-- Claim C10, witness: a body carrying only a status field. -/
theorem C10_witness :
    get_news_headlines "NVDA"
        (NewsResponse.ok (Json.obj [("status", Json.str "ok")])) 3 = Except.ok [] :=
  C10_thm "NVDA" [("status", Json.str "ok")] rfl

unseal Rat.mul Rat.add Rat.sub Rat.inv in
/-- Claim C3, counterexample: with a present-but-zero current price and a
nonzero previous close, the claim says the change is (0-90)/90*100 rounded,
but Python truthiness makes the source return a null change. -/
theorem C3_counterexample :
    (get_stock_price_data "ZERO" (YfResult.ok ⟨some 0, some 90⟩)).change_percentage = none ∧
    (get_stock_price_data "ZERO" (YfResult.ok ⟨some 0, some 90⟩)).change_percentage ≠
      some (pyRound2 ((0 - 90) / 90 * 100)) :=
  ⟨rfl, fun h => Option.noConfusion h⟩

unseal Rat.mul Rat.add Rat.sub Rat.inv in
/-- Claim C3, amended: the change percentage is null exactly when the
current price is missing or zero, or the previous close is missing or
zero (the source tests Python truthiness, not just presence); otherwise it
is (current - previous) / previous * 100 rounded half-even to 2 decimals.
price=100, previousClose=90 gives 11.11, and previousClose=0 gives null
for every price. -/
theorem C3_thm (ticker : String) (info : YfInfo) :
    (get_stock_price_data ticker (YfResult.ok info)).price = info.regularMarketPrice ∧
    ((get_stock_price_data ticker (YfResult.ok info)).change_percentage = none ↔
      info.regularMarketPrice = none ∨ info.regularMarketPrice = some 0 ∨
      info.regularMarketPreviousClose = none ∨ info.regularMarketPreviousClose = some 0) ∧
    (∀ c p, info.regularMarketPrice = some c → info.regularMarketPreviousClose = some p →
      c ≠ 0 → p ≠ 0 →
      (get_stock_price_data ticker (YfResult.ok info)).change_percentage =
        some (pyRound2 ((c - p) / p * 100))) ∧
    (get_stock_price_data ticker (YfResult.ok ⟨some 100, some 90⟩)).change_percentage =
      some (1111/100) ∧
    (∀ pr, (get_stock_price_data ticker (YfResult.ok ⟨pr, some 0⟩)).change_percentage = none) := by
  obtain ⟨cp, pc⟩ := info
  refine ⟨rfl, ?_, ?_, ?_, ?_⟩
  · rcases cp with _ | c <;> rcases pc with _ | p
    · simp [get_stock_price_data]
    · simp [get_stock_price_data]
    · simp [get_stock_price_data]
    · by_cases hc : c = 0 <;> by_cases hp : p = 0 <;>
        simp [get_stock_price_data, hc, hp]
  · intro c p hcp hpc hc hp
    simp only at hcp hpc
    subst hcp
    subst hpc
    simp [get_stock_price_data, hc, hp]
  · rfl
  · intro pr
    rcases pr with _ | q
    · rfl
    · simp [get_stock_price_data]

unseal Rat.mul Rat.add Rat.sub Rat.inv in
/-- Claim C3, witness: the computed branch at price=100, previousClose=90. -/
theorem C3_witness :
    (get_stock_price_data "GRPH" (YfResult.ok ⟨some 100, some 90⟩)).change_percentage =
      some (pyRound2 ((100 - 90) / 90 * 100)) :=
  (C3_thm "GRPH" ⟨some 100, some 90⟩).2.2.1 100 90 rfl rfl (by decide) (by decide)

/-- Claim C4: extract_stock_symbol returns the head of the survivors (the
word-bounded 1-to-5-uppercase-letter matches in scan order, minus the
stoplist and the single letters), and nothing when none survive; on the
sample sentence it picks NVDA. -/
theorem C4_thm (text : String) :
    extract_stock_symbol text = (specSurvivors text).head? ∧
    extract_stock_symbol "Our top pick is NVDA, a strong buy" = some "NVDA" :=
  ⟨rfl, rfl⟩

/-- Claim C5: extract_stock_symbol never returns a stoplisted word nor a
string shorter than 2 characters, and the all-stoplisted sample yields
nothing. -/
theorem C5_thm :
    (∀ text s, extract_stock_symbol text = some s →
      s ∉ common_words ∧ 2 ≤ s.length) ∧
    extract_stock_symbol "THE AND FOR ARE" = none := by
  constructor
  · intro text s h
    have hp := head_filter_prop (fun s => !(common_words.contains s) && s.length ≥ 2)
      (findallSymbols text) s h
    simp only [Bool.and_eq_true, Bool.not_eq_true', decide_eq_true_eq,
      List.contains, List.elem_eq_mem, decide_eq_false_iff_not] at hp
    exact ⟨hp.1, hp.2⟩
  · rfl

/-- Claim C5, witness: the returned symbol NVDA of the sample sentence is
neither stoplisted nor short. -/
theorem C5_witness : "NVDA" ∉ common_words ∧ 2 ≤ "NVDA".length :=
  C5_thm.1 "Our top pick is NVDA, a strong buy" "NVDA" rfl

/-- A run whose discovery model call raises. -/
def c1FailDiscovery : Stubs :=
  { discovery := Except.error (), market := YfResult.err,
    news := NewsResponse.transportError,
    analysis := fun _ => Except.ok (some "fine") }

/-- A run whose discovery text contains no extractable symbol. -/
def c1NoSymbol : Stubs :=
  { discovery := Except.ok (some "THE AND FOR ARE"), market := YfResult.err,
    news := NewsResponse.transportError,
    analysis := fun _ => Except.ok (some "fine") }

/-- Claim C1, counterexample: a run whose discovery call errors and a run
whose extraction finds no symbol report byte-identical failures — the one
generic description — so the failure reported to the caller carries no
stage tag distinguishing discovery from extraction.  The stage-specific
abort descriptions are werkzeug HTTPExceptions, which the catch-all except
Exception handler swallows before re-aborting generically, and the
discovery exception reaches that handler directly. -/
theorem C1_counterexample :
    stockRoute c1FailDiscovery = stockRoute c1NoSymbol ∧
    stockRoute c1FailDiscovery = Except.error genericFailure :=
  ⟨rfl, rfl⟩

/-- Claim C1, amended: every failing run, whichever stage failed, reports
the same fixed generic description to the caller; no stage tag survives
the catch-all handler. -/
theorem C1_thm (st : Stubs) (e : String) (h : stockRoute st = Except.error e) :
    e = genericFailure := by
  rcases stockRoute_shape st with hg | ⟨d, sym, sd, p, r, _, _, _, _, _, hok⟩
  · rw [h] at hg
    exact Except.error.inj hg
  · rw [h] at hok
    exact Except.noConfusion hok

/-- Claim C1, witness: the failure description of the discovery-error run. -/
theorem C1_witness : "Failed to generate stock recommendation" = genericFailure :=
  C1_thm c1FailDiscovery "Failed to generate stock recommendation" rfl

/-- Claim C9: the pipeline is all-or-nothing — a successful run returns
exactly the discovery text and the analysis text concatenated under the
fixed labeled headers, and a failing run carries no text at all, only the
fixed error description, never a partial result. -/
theorem C9_thm (st : Stubs) :
    (∀ s, stockRoute st = Except.ok s →
      ∃ d p r, st.discovery = Except.ok (some d) ∧
        st.analysis p = Except.ok (some r) ∧
        s = "AI Stock Discovery:\n" ++ d ++ "\n\nDetailed Analysis:\n" ++ r) ∧
    (∀ e, stockRoute st = Except.error e → e = genericFailure) := by
  rcases stockRoute_shape st with hg | ⟨d, sym, sd, p, r, h1, h2, h3, h4, h5, hok⟩
  · constructor
    · intro s hs
      rw [hs] at hg
      exact absurd hg (fun hh => Except.noConfusion hh)
    · intro e he
      rw [he] at hg
      exact Except.error.inj hg
  · constructor
    · intro s hs
      rw [hs] at hok
      exact ⟨d, p, r, h1, h5, Except.ok.inj hok⟩
    · intro e he
      rw [he] at hok
      exact absurd hok (fun hh => Except.noConfusion hh)

/-- A fully successful concrete run. -/
def c9Stubs : Stubs :=
  { discovery := Except.ok (some "Pick NVDA today"), market := YfResult.err,
    news := NewsResponse.transportError,
    analysis := fun _ => Except.ok (some "Buy it") }

/-- Claim C9, witness: the successful run composes both texts under the
fixed headers. -/
theorem C9_witness :
    ∃ d p r, c9Stubs.discovery = Except.ok (some d) ∧
      c9Stubs.analysis p = Except.ok (some r) ∧
      "AI Stock Discovery:\nPick NVDA today\n\nDetailed Analysis:\nBuy it" =
        "AI Stock Discovery:\n" ++ d ++ "\n\nDetailed Analysis:\n" ++ r :=
  (C9_thm c9Stubs).1 "AI Stock Discovery:\nPick NVDA today\n\nDetailed Analysis:\nBuy it" rfl

/-- The truthiness test of the price rendering, expanded into the two
null-like cases the spec distinguishes. -/
theorem price_str_eq (pr : Option ℚ) :
    (if pyTruthyOptQ pr then "$" ++ pyFloatRepr (pr.getD 0) else "N/A") =
      if pr = none ∨ pr = some 0 then "N/A" else "$" ++ pyFloatRepr (pr.getD 0) := by
  rcases pr with _ | q
  · rfl
  · by_cases hq : q = 0
    · subst hq
      simp [pyTruthyOptQ]
    · simp [pyTruthyOptQ, hq]

/-- The stubbed news response of the end-to-end GRPH example. -/
def grphNews : NewsResponse :=
  NewsResponse.ok (Json.obj [("articles",
    Json.arr [Json.obj [("title", Json.str "Graphex wins contract")]])])

/-- The snapshot the pipeline builds for the GRPH example. -/
def grphSnapshot : Option StockData :=
  analyze_single_stock "GRPH" (YfResult.ok ⟨some (25/2), some 10⟩) grphNews

/-- The analysis prompt built from the GRPH snapshot. -/
def grphPrompt : String :=
  (grphSnapshot.map (fun sd => (build_analysis_prompt sd).toOption.getD "")).getD ""

set_option maxRecDepth 100000 in
unseal Rat.mul Rat.add Rat.sub Rat.inv in
/-- Claim C6, counterexample: with a present price of exactly 0 the prompt
renders the price as N/A although the price is not null (Python truthiness
of the price), so N/A does not appear exactly when the price is null. -/
theorem C6_counterexample :
    strHasSub ((build_analysis_prompt
        { symbol := "ZERO", price := some 0, change_percentage := none,
          news := [] }).toOption.getD "") "Current Price: N/A" = true ∧
    strHasSub ((build_analysis_prompt
        { symbol := "ZERO", price := some 0, change_percentage := none,
          news := [] }).toOption.getD "") "Current Price: $" = false ∧
    (some (0:ℚ) ≠ (none : Option ℚ)) :=
  ⟨rfl, rfl, fun h => Option.noConfusion h⟩

set_option maxRecDepth 100000 in
unseal Rat.mul Rat.add Rat.sub Rat.inv in
/-- Claim C6, amended: for every snapshot whose headlines are strings,
build_analysis_prompt deterministically produces the fixed-format prompt:
the ticker, the $-prefixed price — N/A exactly when the price is null or
zero (Python truthiness) —, the %-suffixed change — N/A exactly when the
change is null —, and the headlines joined with a semicolon separator, or
the fixed no-news text when empty; the stubbed GRPH run yields a prompt
containing the four required fragments. -/
theorem C6_thm (sd : StockData) (hnews : ∀ j ∈ sd.news, ∃ s, j = Json.str s) :
    build_analysis_prompt sd = Except.ok (promptHead ++ "Stock: " ++ sd.symbol ++
      "\nCurrent Price: " ++
        (if sd.price = none ∨ sd.price = some 0 then "N/A"
         else "$" ++ pyFloatRepr (sd.price.getD 0)) ++
      "\nDaily Change: " ++
        (match sd.change_percentage with
         | some c => pyFloatRepr c ++ "%"
         | none => "N/A") ++
      "\nRecent News: " ++
        (if sd.news.isEmpty then "No recent news"
         else String.intercalate "; " (sd.news.map jsonStrVal)) ++
      promptTail) ∧
    strHasSub grphPrompt "Stock: GRPH" = true ∧
    strHasSub grphPrompt "Current Price: $12.5" = true ∧
    strHasSub grphPrompt "Daily Change: 25.0%" = true ∧
    strHasSub grphPrompt "Graphex wins contract" = true := by
  refine ⟨?_, rfl, rfl, rfl, rfl⟩
  obtain ⟨sym, pr, ch, news⟩ := sd
  dsimp only at hnews ⊢
  have hjoin : newsJoin news = some (if news.isEmpty then "No recent news"
      else String.intercalate "; " (news.map jsonStrVal)) := by
    rcases news with _ | ⟨j, rest⟩
    · rfl
    · unfold newsJoin
      rw [mapStrTitles_of_strs _ hnews]
      simp
  unfold build_analysis_prompt
  dsimp only
  rw [hjoin]
  dsimp only
  rw [price_str_eq]

/-- The concrete snapshot of the GRPH example. -/
def c6sdW : StockData :=
  { symbol := "GRPH", price := some (25/2), change_percentage := some 25,
    news := [Json.str "Graphex wins contract"] }

set_option maxRecDepth 100000 in
unseal Rat.mul Rat.add Rat.sub Rat.inv in
/-- Claim C6, witness: the format theorem applied at the concrete GRPH
snapshot. -/
theorem C6_witness :
    build_analysis_prompt c6sdW = Except.ok (promptHead ++ "Stock: " ++ c6sdW.symbol ++
      "\nCurrent Price: " ++
        (if c6sdW.price = none ∨ c6sdW.price = some 0 then "N/A"
         else "$" ++ pyFloatRepr (c6sdW.price.getD 0)) ++
      "\nDaily Change: " ++
        (match c6sdW.change_percentage with
         | some c => pyFloatRepr c ++ "%"
         | none => "N/A") ++
      "\nRecent News: " ++
        (if c6sdW.news.isEmpty then "No recent news"
         else String.intercalate "; " (c6sdW.news.map jsonStrVal)) ++
      promptTail) ∧
    strHasSub grphPrompt "Stock: GRPH" = true ∧
    strHasSub grphPrompt "Current Price: $12.5" = true ∧
    strHasSub grphPrompt "Daily Change: 25.0%" = true ∧
    strHasSub grphPrompt "Graphex wins contract" = true :=
  C6_thm c6sdW (fun j hj => ⟨"Graphex wins contract", by simpa [c6sdW] using hj⟩)

/-- Claim C2, witness: the absorbed failure shapes at a concrete ticker and
status. -/
theorem C2_witness :
    get_news_headlines "NVDA" NewsResponse.transportError 3 = Except.ok [] ∧
    get_news_headlines "NVDA" (NewsResponse.httpError 500) 3 = Except.ok [] ∧
    get_news_headlines "NVDA" NewsResponse.badJson 3 = Except.ok [] ∧
    get_news_headlines "NVDA"
        (NewsResponse.ok (Json.obj [("articles", Json.arr [Json.num 1])])) 3 =
      Except.error PyErr.typeError :=
  C2_thm "NVDA" 500 3

/-- Claim C4, witness: the refinement and the sample at the concrete
sentence. -/
theorem C4_witness :
    extract_stock_symbol "Our top pick is NVDA, a strong buy" =
      (specSurvivors "Our top pick is NVDA, a strong buy").head? ∧
    extract_stock_symbol "Our top pick is NVDA, a strong buy" = some "NVDA" :=
  C4_thm "Our top pick is NVDA, a strong buy"

/-- Claim C7, witness: the null fallback at a concrete ticker. -/
theorem C7_witness :
    get_stock_price_data "NVDA" YfResult.err =
      { price := none, change_percentage := none } :=
  C7_thm "NVDA"

end SOTD
